import Mathlib

/-!
Shallow embedding of the fingerprint-operation core of `src/main.rs`
(rs-fprintui): the background tasks spawned by `handle_verification` and
`handle_enrollment`, their status-event listening loops, and the extra
device calls made by the UI-side result receivers.
-/

namespace Fprintui

/-- A status event from the fprintd signal stream, `(result, done)`, as
delivered to the `verify_status` / `enroll_status` handlers. -/
structure StatusEvent where
  result : String
  done : Bool
deriving Repr, DecidableEq

/-- The calls issued on the `FPrintDevice` D-Bus proxy by the code under
analysis. `subscribeVerifyStatus` / `subscribeEnrollStatus` stand for
`receive_verify_status()` / `receive_enroll_status()`. -/
inductive DeviceCall where
  | claim
  | verifyStart (finger : String)
  | subscribeVerifyStatus
  | verifyStop
  | enrollStart (finger : String)
  | subscribeEnrollStatus
  | enrollStop
  | release
deriving Repr, DecidableEq

/-- How a `done = true` event's result code is treated by the match arms of
the listening loops: break with success, `continue`, or break with the raw
code as an error. -/
inductive Classification where
  | success
  | retry
  | failure
deriving Repr, DecidableEq

/-- The match arms on `args.result` in `handle_verification`'s loop
(src/main.rs lines 123-134). -/
def classifyVerify (code : String) : Classification :=
  if code = "verify-match" then .success
  else if code = "verify-retry-scan" ∨ code = "verify-swipe-too-short" ∨
          code = "verify-finger-not-centered" ∨ code = "verify-remove-and-retry" then .retry
  else .failure

/-- The match arms on `args.result` in `handle_enrollment`'s loop
(src/main.rs lines 237-250). -/
def classifyEnroll (code : String) : Classification :=
  if code = "enroll-completed" then .success
  else if code = "enroll-stage-passed" ∨ code = "enroll-retry-scan" ∨
          code = "enroll-swipe-too-short" ∨ code = "enroll-finger-not-centered" ∨
          code = "enroll-remove-and-retry" then .retry
  else .failure

/-- The two operation kinds the application runs. -/
inductive OperationKind where
  | enroll
  | verify
deriving Repr, DecidableEq

/-- Per-kind result-code classification, selecting the match arms of the
corresponding handler. -/
def classify : OperationKind → String → Classification
  | .enroll => classifyEnroll
  | .verify => classifyVerify

/-- The kind's success code: the arm that breaks with `Ok(())`. -/
def successCode : OperationKind → String
  | .enroll => "enroll-completed"
  | .verify => "verify-match"

/-- The start call the kind's handler issues (`enroll_start` /
`verify_start`). -/
def startCall : OperationKind → String → DeviceCall
  | .enroll => .enrollStart
  | .verify => .verifyStart

/-- The stop call the kind's handler issues (`enroll_stop` /
`verify_stop`). -/
def stopCall : OperationKind → DeviceCall
  | .enroll => .enrollStop
  | .verify => .verifyStop

/-- The subscription call the kind's handler issues. -/
def subscribeCall : OperationKind → DeviceCall
  | .enroll => .subscribeEnrollStatus
  | .verify => .subscribeVerifyStatus

/-- The Rust listening loop
`loop { if let Some(msg) = stream.next().await { ... } }`:
skip `done = false` events, `continue` on retry codes, break `Ok(())` on the
success code, break `Err(args.result)` otherwise.  Returns the break value
together with the unconsumed suffix of the stream; `none` models the stream
ending with no terminal event, in which case the Rust `loop` never breaks
(the `if let` body is skipped forever). -/
def listenLoop (cl : String → Classification) :
    List StatusEvent → Option (Except String Unit × List StatusEvent)
  | [] => none
  | e :: rest =>
    if e.done then
      match cl e.result with
      | .success => some (.ok (), rest)
      | .retry => listenLoop cl rest
      | .failure => some (.error e.result, rest)
    else listenLoop cl rest

deriving instance DecidableEq for Except

/-- Observable behaviour of one spawned background task: the proxy calls it
makes in order, the value it sends on the channel (`none` when the task never
reaches the send), and whether it panicked via `.unwrap()`. -/
structure TaskRun where
  calls : List DeviceCall
  sent : Option (Except String Unit)
  panicked : Bool
deriving Repr, DecidableEq

/-- The task spawned by `handle_verification` (src/main.rs lines 110-141).
`claimResult` is the error returned by `proxy.claim` (`none` = ok);
`startResult` likewise for `proxy.verify_start`.  `claim(...).unwrap()`
panics on a claim error; the result of `verify_start` is discarded
(`let _ = ...`), so `startResult` does not influence the run; the
subscription is created only after the start call. -/
def handleVerificationTask (finger : String) (claimResult : Option String)
    (startResult : Option String) (events : List StatusEvent) : TaskRun :=
  match claimResult with
  | some _ => { calls := [.claim], sent := none, panicked := true }
  | none =>
    match startResult, listenLoop classifyVerify events with
    | _, none =>
      { calls := [.claim, .verifyStart finger, .subscribeVerifyStatus],
        sent := none, panicked := false }
    | _, some (r, _) =>
      { calls := [.claim, .verifyStart finger, .subscribeVerifyStatus,
                  .verifyStop, .release],
        sent := some r, panicked := false }

/-- The task spawned by `handle_enrollment` (src/main.rs lines 222-268),
structured exactly like the verification task but with the enroll calls and
classification. -/
def handleEnrollmentTask (finger : String) (claimResult : Option String)
    (startResult : Option String) (events : List StatusEvent) : TaskRun :=
  match claimResult with
  | some _ => { calls := [.claim], sent := none, panicked := true }
  | none =>
    match startResult, listenLoop classifyEnroll events with
    | _, none =>
      { calls := [.claim, .enrollStart finger, .subscribeEnrollStatus],
        sent := none, panicked := false }
    | _, some (r, _) =>
      { calls := [.claim, .enrollStart finger, .subscribeEnrollStatus,
                  .enrollStop, .release],
        sent := some r, panicked := false }

/-- The kind's background task. -/
def taskRun : OperationKind → String → Option String → Option String →
    List StatusEvent → TaskRun
  | .enroll => handleEnrollmentTask
  | .verify => handleVerificationTask

/-- Device calls made by `handle_verification`'s 100 ms timeout callback
once a result arrives (src/main.rs lines 151-188): when the prompt dialog is
still alive and the result is an `Err`, it opens a fresh connection and
calls `verify_stop` and `release` again; otherwise it issues no device
calls.  Pressing Cancel destroys the dialog, so after a cancel the weak
reference fails to upgrade and `dialogAlive` is false. -/
def verifyReceiverCalls (dialogAlive : Bool) (r : Except String Unit) :
    List DeviceCall :=
  if dialogAlive then
    match r with
    | .ok _ => []
    | .error _ => [.verifyStop, .release]
  else []

/-- All device calls of one verification session: the background task's
calls followed by the UI receiver's calls (the latter happen only when the
task actually sent a result).  `cancelRequested` records whether the user
pressed Cancel, which destroys the dialog and nothing else. -/
def verifySessionCalls (finger : String) (claimResult startResult : Option String)
    (cancelRequested : Bool) (events : List StatusEvent) : List DeviceCall :=
  let t := handleVerificationTask finger claimResult startResult events
  t.calls ++ (match t.sent with
    | some r => verifyReceiverCalls (!cancelRequested) r
    | none => [])

/-- The fixed finger list of `create_finger_selector` (src/main.rs lines
56-67); the combo box offers exactly these entries. -/
def fingers : List String :=
  ["left-thumb", "left-index-finger", "left-middle-finger",
   "left-ring-finger", "left-little-finger",
   "right-thumb", "right-index-finger", "right-middle-finger",
   "right-ring-finger", "right-little-finger"]

/-- An event that does not break the listening loop: either `done = false`
or a `done = true` event whose code the kind classifies as retry. -/
def isNonTerminal (cl : String → Classification) (e : StatusEvent) : Bool :=
  !e.done ||
    (match cl e.result with
     | .retry => true
     | _ => false)

end Fprintui

namespace Fprintui

/-- A `done = false` event, or a `done = true` event with a retry code, is
skipped by the listening loop. -/
theorem listenLoop_cons_nonTerminal (cl : String → Classification) (e : StatusEvent)
    (rest : List StatusEvent) (h : isNonTerminal cl e = true) :
    listenLoop cl (e :: rest) = listenLoop cl rest := by
  unfold isNonTerminal at h
  cases hd : e.done with
  | false => simp [listenLoop, hd]
  | true =>
    rw [hd] at h
    simp only [Bool.not_true, Bool.false_or] at h
    cases hc : cl e.result with
    | retry => simp [listenLoop, hd, hc]
    | success => rw [hc] at h; simp at h
    | failure => rw [hc] at h; simp at h

/-- A block of non-terminal events at the head of the stream is skipped
wholesale. -/
theorem listenLoop_append_nonTerminal (cl : String → Classification)
    (front rest : List StatusEvent)
    (h : ∀ e ∈ front, isNonTerminal cl e = true) :
    listenLoop cl (front ++ rest) = listenLoop cl rest := by
  induction front with
  | nil => rfl
  | cons e front ih =>
    rw [List.cons_append, listenLoop_cons_nonTerminal cl e _ (h e (by simp))]
    exact ih (fun x hx => h x (by simp [hx]))

/-- If every event of the stream is non-terminal, the loop never breaks. -/
theorem listenLoop_none_of_nonTerminal (cl : String → Classification)
    (events : List StatusEvent)
    (h : ∀ e ∈ events, isNonTerminal cl e = true) :
    listenLoop cl events = none := by
  have h1 := listenLoop_append_nonTerminal cl events [] h
  simpa using h1

/-- Each kind's success code is classified as success. -/
theorem classify_successCode (k : OperationKind) :
    classify k (successCode k) = Classification.success := by
  cases k <;> rfl

/-- The loop breaks with `Ok(())` on the kind's success code. -/
theorem listenLoop_success_head (k : OperationKind) (rest : List StatusEvent) :
    listenLoop (classify k) (⟨successCode k, true⟩ :: rest) =
      some (Except.ok (), rest) := by
  cases k <;> rfl

/-- The loop breaks with `Err(result)` on a `done = true` event whose code
classifies as failure. -/
theorem listenLoop_failure_head (cl : String → Classification) (e : StatusEvent)
    (rest : List StatusEvent) (hdone : e.done = true)
    (hfail : cl e.result = Classification.failure) :
    listenLoop cl (e :: rest) = some (Except.error e.result, rest) := by
  simp [listenLoop, hdone, hfail]

/-- Run of the verification task when claim succeeds and the loop breaks. -/
theorem handleVerificationTask_terminal (finger : String) (startResult : Option String)
    (events rem : List StatusEvent) (r : Except String Unit)
    (h : listenLoop classifyVerify events = some (r, rem)) :
    handleVerificationTask finger none startResult events =
      { calls := [.claim, .verifyStart finger, .subscribeVerifyStatus,
                  .verifyStop, .release],
        sent := some r, panicked := false } := by
  cases startResult <;> (unfold handleVerificationTask; rw [h])

/-- Run of the verification task when claim succeeds and the stream ends
with no terminal event. -/
theorem handleVerificationTask_noTerminal (finger : String) (startResult : Option String)
    (events : List StatusEvent)
    (h : listenLoop classifyVerify events = none) :
    handleVerificationTask finger none startResult events =
      { calls := [.claim, .verifyStart finger, .subscribeVerifyStatus],
        sent := none, panicked := false } := by
  cases startResult <;> (unfold handleVerificationTask; rw [h])

/-- Run of the enrollment task when claim succeeds and the loop breaks. -/
theorem handleEnrollmentTask_terminal (finger : String) (startResult : Option String)
    (events rem : List StatusEvent) (r : Except String Unit)
    (h : listenLoop classifyEnroll events = some (r, rem)) :
    handleEnrollmentTask finger none startResult events =
      { calls := [.claim, .enrollStart finger, .subscribeEnrollStatus,
                  .enrollStop, .release],
        sent := some r, panicked := false } := by
  cases startResult <;> (unfold handleEnrollmentTask; rw [h])

/-- Run of the enrollment task when claim succeeds and the stream ends with
no terminal event. -/
theorem handleEnrollmentTask_noTerminal (finger : String) (startResult : Option String)
    (events : List StatusEvent)
    (h : listenLoop classifyEnroll events = none) :
    handleEnrollmentTask finger none startResult events =
      { calls := [.claim, .enrollStart finger, .subscribeEnrollStatus],
        sent := none, panicked := false } := by
  cases startResult <;> (unfold handleEnrollmentTask; rw [h])

/-- The per-kind task specializes to the two handler tasks. -/
theorem taskRun_terminal (k : OperationKind) (finger : String)
    (startResult : Option String) (events rem : List StatusEvent)
    (r : Except String Unit)
    (h : listenLoop (classify k) events = some (r, rem)) :
    taskRun k finger none startResult events =
      { calls := [.claim, startCall k finger, subscribeCall k,
                  stopCall k, .release],
        sent := some r, panicked := false } := by
  cases k
  · exact handleEnrollmentTask_terminal finger startResult events rem r h
  · exact handleVerificationTask_terminal finger startResult events rem r h

/-- The per-kind task when the stream ends with no terminal event. -/
theorem taskRun_noTerminal (k : OperationKind) (finger : String)
    (startResult : Option String) (events : List StatusEvent)
    (h : listenLoop (classify k) events = none) :
    taskRun k finger none startResult events =
      { calls := [.claim, startCall k finger, subscribeCall k],
        sent := none, panicked := false } := by
  cases k
  · exact handleEnrollmentTask_noTerminal finger startResult events h
  · exact handleVerificationTask_noTerminal finger startResult events h

end Fprintui

namespace Fprintui

/-- C1: for either operation kind, `done = false` events and retry-coded
`done = true` events never break the listening loop and never affect the
result, and the first `done = true` event carrying the kind's success code
fixes the sent outcome to `Ok(())`, however many such non-terminal events
preceded it. -/
theorem claim1_noise_never_affects_outcome (k : OperationKind) (finger : String)
    (startResult : Option String) (front rest : List StatusEvent) (e : StatusEvent)
    (hfront : ∀ x ∈ front, isNonTerminal (classify k) x = true)
    (he : isNonTerminal (classify k) e = true) :
    listenLoop (classify k) (e :: rest) = listenLoop (classify k) rest ∧
    (taskRun k finger none startResult
        (front ++ ⟨successCode k, true⟩ :: rest)).sent = some (Except.ok ()) := by
  refine ⟨listenLoop_cons_nonTerminal _ e rest he, ?_⟩
  have h1 : listenLoop (classify k) (front ++ ⟨successCode k, true⟩ :: rest)
      = some (Except.ok (), rest) := by
    rw [listenLoop_append_nonTerminal _ _ _ hfront, listenLoop_success_head]
  rw [taskRun_terminal k finger startResult (front ++ ⟨successCode k, true⟩ :: rest)
        rest (Except.ok ()) h1]

/-- Witness for C1: a verify session with a retry-coded done event and a
progress event before the success code. -/
theorem claim1_witness :
    (∀ x ∈ ([⟨"verify-retry-scan", true⟩, ⟨"progress", false⟩] : List StatusEvent),
        isNonTerminal (classify .verify) x = true) ∧
    isNonTerminal (classify .verify) ⟨"verify-swipe-too-short", true⟩ = true ∧
    (listenLoop (classify .verify)
        (⟨"verify-swipe-too-short", true⟩ :: [⟨"tail", false⟩]) =
      listenLoop (classify .verify) [⟨"tail", false⟩] ∧
     (taskRun .verify "left-thumb" none none
        ([⟨"verify-retry-scan", true⟩, ⟨"progress", false⟩] ++
          ⟨successCode .verify, true⟩ :: [⟨"tail", false⟩])).sent =
       some (Except.ok ())) :=
  ⟨by decide, by decide,
   claim1_noise_never_affects_outcome .verify "left-thumb" none
     [⟨"verify-retry-scan", true⟩, ⟨"progress", false⟩] [⟨"tail", false⟩]
     ⟨"verify-swipe-too-short", true⟩ (by decide) (by decide)⟩

/-- C4: a `done = true` event whose code is neither the success code nor a
retry code breaks the loop with `Err` of the verbatim code, leaving the rest
of the stream unconsumed, and the task sends exactly that failure. -/
theorem claim4_failure_code_verbatim (k : OperationKind) (finger : String)
    (startResult : Option String) (front rest : List StatusEvent) (e : StatusEvent)
    (hfront : ∀ x ∈ front, isNonTerminal (classify k) x = true)
    (hdone : e.done = true)
    (hfail : classify k e.result = Classification.failure) :
    listenLoop (classify k) (front ++ e :: rest) =
      some (Except.error e.result, rest) ∧
    (taskRun k finger none startResult (front ++ e :: rest)).sent =
      some (Except.error e.result) := by
  have h1 : listenLoop (classify k) (front ++ e :: rest) =
      some (Except.error e.result, rest) := by
    rw [listenLoop_append_nonTerminal _ _ _ hfront,
        listenLoop_failure_head _ e rest hdone hfail]
  exact ⟨h1, by
    rw [taskRun_terminal k finger startResult (front ++ e :: rest) rest
          (Except.error e.result) h1]⟩

/-- Witness for C4: a verify session failing on "verify-disconnected" with
an unconsumed event after it. -/
theorem claim4_witness :
    ((∀ x ∈ ([⟨"scanning", false⟩] : List StatusEvent),
        isNonTerminal (classify .verify) x = true) ∧
     (⟨"verify-disconnected", true⟩ : StatusEvent).done = true ∧
     classify .verify (⟨"verify-disconnected", true⟩ : StatusEvent).result =
       Classification.failure) ∧
    (listenLoop (classify .verify)
        ([⟨"scanning", false⟩] ++ ⟨"verify-disconnected", true⟩ :: [⟨"later", true⟩]) =
      some (Except.error "verify-disconnected", [⟨"later", true⟩]) ∧
     (taskRun .verify "right-index-finger" none none
        ([⟨"scanning", false⟩] ++ ⟨"verify-disconnected", true⟩ :: [⟨"later", true⟩])).sent =
      some (Except.error "verify-disconnected")) :=
  ⟨⟨by decide, by decide, by decide⟩,
   claim4_failure_code_verbatim .verify "right-index-finger" none
     [⟨"scanning", false⟩] [⟨"later", true⟩] ⟨"verify-disconnected", true⟩
     (by decide) (by decide) (by decide)⟩

/-- C10: if every event of the stream is non-terminal, the listening loop
never breaks, the task never invokes its stop call or release, and no
result is ever sent. -/
theorem claim10_no_terminal_no_cleanup (k : OperationKind) (finger : String)
    (startResult : Option String) (events : List StatusEvent)
    (h : ∀ e ∈ events, isNonTerminal (classify k) e = true) :
    listenLoop (classify k) events = none ∧
    (taskRun k finger none startResult events).sent = none ∧
    (taskRun k finger none startResult events).calls.count (stopCall k) = 0 ∧
    (taskRun k finger none startResult events).calls.count DeviceCall.release = 0 := by
  have h1 := listenLoop_none_of_nonTerminal (classify k) events h
  rw [taskRun_noTerminal k finger startResult events h1]
  refine ⟨h1, rfl, ?_, ?_⟩ <;>
    cases k <;> simp [List.count_cons, stopCall, startCall, subscribeCall]

/-- Witness for C10: an enroll session whose stream holds only a retry-coded
done event and a progress event. -/
theorem claim10_witness :
    (∀ e ∈ ([⟨"enroll-retry-scan", true⟩, ⟨"mid", false⟩] : List StatusEvent),
        isNonTerminal (classify .enroll) e = true) ∧
    (listenLoop (classify .enroll)
        [⟨"enroll-retry-scan", true⟩, ⟨"mid", false⟩] = none ∧
     (taskRun .enroll "left-thumb" none none
        [⟨"enroll-retry-scan", true⟩, ⟨"mid", false⟩]).sent = none ∧
     (taskRun .enroll "left-thumb" none none
        [⟨"enroll-retry-scan", true⟩, ⟨"mid", false⟩]).calls.count
          (stopCall .enroll) = 0 ∧
     (taskRun .enroll "left-thumb" none none
        [⟨"enroll-retry-scan", true⟩, ⟨"mid", false⟩]).calls.count
          DeviceCall.release = 0) :=
  ⟨by decide,
   claim10_no_terminal_no_cleanup .enroll "left-thumb" none
     [⟨"enroll-retry-scan", true⟩, ⟨"mid", false⟩] (by decide)⟩

end Fprintui

namespace Fprintui

/-- C2 counterexample: on the claim-failure path the verification task
panics and never sends any result, so it is not the case that exactly one
Outcome is published on every path. -/
theorem claim2_counterexample :
    (handleVerificationTask "left-thumb" (some "AlreadyClaimed") none []).sent = none ∧
    (handleVerificationTask "left-thumb" (some "AlreadyClaimed") none []).panicked = true := by
  decide

/-- C2 amended: exactly one result is sent when claim succeeds and the
listening loop reaches a terminal event; when claim fails the task panics
and sends nothing. -/
theorem claim2_amended (k : OperationKind) (finger : String)
    (startResult : Option String) (events rem : List StatusEvent)
    (r : Except String Unit)
    (h : listenLoop (classify k) events = some (r, rem)) :
    (taskRun k finger none startResult events).sent = some r ∧
    ∀ err : String, ∀ evs : List StatusEvent,
      (taskRun k finger (some err) startResult evs).sent = none := by
  refine ⟨by rw [taskRun_terminal k finger startResult events rem r h], ?_⟩
  intro err evs
  cases k <;> rfl

/-- Witness for C2 amended: an enroll session that completes at once. -/
theorem claim2_witness :
    listenLoop (classify .enroll) [⟨"enroll-completed", true⟩] =
      some (Except.ok (), []) ∧
    ((taskRun .enroll "right-thumb" none none
        [⟨"enroll-completed", true⟩]).sent = some (Except.ok ()) ∧
     ∀ err : String, ∀ evs : List StatusEvent,
       (taskRun .enroll "right-thumb" (some err) none evs).sent = none) :=
  ⟨by decide,
   claim2_amended .enroll "right-thumb" none [⟨"enroll-completed", true⟩] []
     (Except.ok ()) (by decide)⟩

/-- C3 counterexample: on verification's listening-failure path, release is
invoked twice in one session — once by the background task and once more by
the UI receiver on a fresh connection — refuting release-exactly-once. -/
theorem claim3_counterexample :
    (verifySessionCalls "left-thumb" none none false
        [⟨"verify-disconnected", true⟩]).count DeviceCall.release = 2 := by
  decide

/-- C3 amended: the background task invokes its stop call and release
exactly once whenever the listening loop terminates; on verification's
error result the UI receiver invokes release a second time; and when the
loop never terminates the task invokes release zero times even though claim
succeeded. -/
theorem claim3_amended (k : OperationKind) (finger : String)
    (startResult : Option String) (events rem : List StatusEvent)
    (r : Except String Unit)
    (h : listenLoop (classify k) events = some (r, rem)) :
    ((taskRun k finger none startResult events).calls.count DeviceCall.release = 1 ∧
     (taskRun k finger none startResult events).calls.count (stopCall k) = 1) ∧
    (∀ code : String, k = OperationKind.verify → r = Except.error code →
      (verifySessionCalls finger none startResult false events).count
        DeviceCall.release = 2) ∧
    (∀ evs : List StatusEvent, listenLoop (classify k) evs = none →
      (taskRun k finger none startResult evs).calls.count DeviceCall.release = 0) := by
  refine ⟨?_, ?_, ?_⟩
  · rw [taskRun_terminal k finger startResult events rem r h]
    constructor <;>
      cases k <;> simp [List.count_cons, stopCall, startCall, subscribeCall]
  · intro code hk hr
    subst hk
    subst hr
    have h2 := handleVerificationTask_terminal finger startResult events rem
      (Except.error code) h
    simp [verifySessionCalls, h2, verifyReceiverCalls, List.count_append,
          List.count_cons]
  · intro evs h0
    rw [taskRun_noTerminal k finger startResult evs h0]
    cases k <;> simp [List.count_cons, startCall, subscribeCall]

/-- Witness for C3 amended: a verification session failing on
"verify-disconnected". -/
theorem claim3_witness :
    listenLoop (classify .verify) [⟨"verify-disconnected", true⟩] =
      some (Except.error "verify-disconnected", []) ∧
    (((taskRun .verify "left-thumb" none none
        [⟨"verify-disconnected", true⟩]).calls.count DeviceCall.release = 1 ∧
      (taskRun .verify "left-thumb" none none
        [⟨"verify-disconnected", true⟩]).calls.count (stopCall .verify) = 1) ∧
     (∀ code : String, OperationKind.verify = OperationKind.verify →
        (Except.error "verify-disconnected" : Except String Unit) = Except.error code →
        (verifySessionCalls "left-thumb" none none false
            [⟨"verify-disconnected", true⟩]).count DeviceCall.release = 2) ∧
     (∀ evs : List StatusEvent, listenLoop (classify .verify) evs = none →
        (taskRun .verify "left-thumb" none none evs).calls.count
          DeviceCall.release = 0)) :=
  ⟨by decide,
   claim3_amended .verify "left-thumb" none [⟨"verify-disconnected", true⟩] []
     (Except.error "verify-disconnected") (by decide)⟩

end Fprintui

namespace Fprintui

/-- C5 counterexample: cancel pressed during listening with no terminal
event ever arriving — the claim demands Outcome = Cancelled with stop and
release each invoked once, but the session makes exactly the calls claim,
verify_start, subscribe (no stop, no release) and sends no result at all. -/
theorem claim5_counterexample :
    verifySessionCalls "left-thumb" none none true [] =
      [DeviceCall.claim, DeviceCall.verifyStart "left-thumb",
       DeviceCall.subscribeVerifyStatus] ∧
    (handleVerificationTask "left-thumb" none none []).sent = none := by
  decide

/-- C5 amended: pressing Cancel only destroys the prompt dialog; the
background task is unaffected, so when no terminal event arrives the
session never stops, never releases and never sends a result, with or
without a cancel request. -/
theorem claim5_amended (finger : String) (startResult : Option String)
    (events : List StatusEvent) (cancelRequested : Bool)
    (h : listenLoop classifyVerify events = none) :
    verifySessionCalls finger none startResult cancelRequested events =
      [DeviceCall.claim, DeviceCall.verifyStart finger,
       DeviceCall.subscribeVerifyStatus] ∧
    (handleVerificationTask finger none startResult events).sent = none := by
  have h2 := handleVerificationTask_noTerminal finger startResult events h
  constructor
  · simp [verifySessionCalls, h2]
  · rw [h2]

/-- Witness for C5 amended: cancel requested, stream holds one retry-coded
event and then ends. -/
theorem claim5_witness :
    listenLoop classifyVerify [⟨"verify-retry-scan", true⟩] = none ∧
    (verifySessionCalls "right-little-finger" none none true
        [⟨"verify-retry-scan", true⟩] =
      [DeviceCall.claim, DeviceCall.verifyStart "right-little-finger",
       DeviceCall.subscribeVerifyStatus] ∧
     (handleVerificationTask "right-little-finger" none none
        [⟨"verify-retry-scan", true⟩]).sent = none) :=
  ⟨by decide,
   claim5_amended "right-little-finger" none [⟨"verify-retry-scan", true⟩]
     true (by decide)⟩

/-- C6 counterexample: when claim fails with "AlreadyClaimed" the claim
demands Outcome = Failure("AlreadyClaimed"), but the enrollment task sends
nothing and panics (its only call being the failed claim). -/
theorem claim6_counterexample :
    (handleEnrollmentTask "right-thumb" (some "AlreadyClaimed") none []).sent = none ∧
    (handleEnrollmentTask "right-thumb" (some "AlreadyClaimed") none []).panicked = true ∧
    (handleEnrollmentTask "right-thumb" (some "AlreadyClaimed") none []).calls =
      [DeviceCall.claim] := by
  decide

/-- C6 amended: when claim fails the task panics via `.unwrap()`: no result
is ever sent and no start, subscribe, stop or release call is made — the
only device call is the failed claim. -/
theorem claim6_amended (k : OperationKind) (finger err : String)
    (startResult : Option String) (events : List StatusEvent) :
    taskRun k finger (some err) startResult events =
      { calls := [DeviceCall.claim], sent := none, panicked := true } := by
  cases k <;> rfl

/-- C7 counterexample: claim succeeds, verify_start fails with "DeviceBusy",
yet the outcome is `Ok` (a success taken from the event stream), and the
run includes subscription and listening — refuting both Failure(start
error) and the absence of listening. -/
theorem claim7_counterexample :
    (handleVerificationTask "left-thumb" none (some "DeviceBusy")
        [⟨"verify-match", true⟩]).sent = some (Except.ok ()) ∧
    (handleVerificationTask "left-thumb" none (some "DeviceBusy")
        [⟨"verify-match", true⟩]).calls =
      [DeviceCall.claim, DeviceCall.verifyStart "left-thumb",
       DeviceCall.subscribeVerifyStatus, DeviceCall.verifyStop,
       DeviceCall.release] := by
  decide

/-- C7 amended: the start call's result is discarded (`let _ = ...`): the
whole task run — its calls and the result it sends — is identical for any
two start results, so a start failure neither fixes the outcome nor skips
the listening phase. -/
theorem claim7_amended (k : OperationKind) (finger : String)
    (s1 s2 : Option String) (events : List StatusEvent) :
    taskRun k finger none s1 events = taskRun k finger none s2 events := by
  cases k
  · show handleEnrollmentTask finger none s1 events =
        handleEnrollmentTask finger none s2 events
    unfold handleEnrollmentTask
    cases s1 <;> cases s2 <;> cases listenLoop classifyEnroll events <;> rfl
  · show handleVerificationTask finger none s1 events =
        handleVerificationTask finger none s2 events
    unfold handleVerificationTask
    cases s1 <;> cases s2 <;> cases listenLoop classifyVerify events <;> rfl

/-- C8: on every claim-succeeding run, of either kind, the calls begin
claim, start, subscribe — the start call is issued before the status
subscription is created, the opposite of the order the claim requires. -/
theorem claim8_start_precedes_subscription (k : OperationKind) (finger : String)
    (startResult : Option String) (events : List StatusEvent) :
    ∃ tail : List DeviceCall,
      (taskRun k finger none startResult events).calls =
        DeviceCall.claim :: startCall k finger :: subscribeCall k :: tail := by
  cases hl : listenLoop (classify k) events with
  | none =>
    exact ⟨[], by rw [taskRun_noTerminal k finger startResult events hl]⟩
  | some p =>
    obtain ⟨r, rem⟩ := p
    exact ⟨[stopCall k, DeviceCall.release],
      by rw [taskRun_terminal k finger startResult events rem r hl]⟩

/-- C9 counterexample: a token outside the fixed finger list of the
selector still reaches the device — the verification task passes it
verbatim to verify_start. -/
theorem claim9_counterexample :
    "not-a-finger" ∉ fingers ∧
    DeviceCall.verifyStart "not-a-finger" ∈
      (handleVerificationTask "not-a-finger" none none []).calls := by
  decide

/-- C9 amended: the handlers perform no finger validation — for any finger
string whatsoever, once claim succeeds the kind's start call carrying that
string verbatim is among the device calls; only the UI combo box restricts
the choice to the fixed list. -/
theorem claim9_amended (k : OperationKind) (finger : String)
    (startResult : Option String) (events : List StatusEvent) :
    startCall k finger ∈ (taskRun k finger none startResult events).calls := by
  cases hl : listenLoop (classify k) events with
  | none =>
    rw [taskRun_noTerminal k finger startResult events hl]
    simp
  | some p =>
    obtain ⟨r, rem⟩ := p
    rw [taskRun_terminal k finger startResult events rem r hl]
    simp

end Fprintui
